import Mathlib

/-!
Verification of the SOCKS5 proxy front-end (`proxy/server.go`).

The per-connection handler is embedded as a pure function from a
`SessionEnv` — the outcomes of the effectful calls the handler makes
(socket reads, the connect-request parser, hostname resolution, the
outbound dial, the relay handoff) — to a trace of observable events
(client writes, state transitions, dials, the admission-slot release)
together with the Go return value.  The dispatcher's admission
discipline is embedded as a step relation on the semaphore channel.
-/

namespace Proxy

/-- Go bytes, as natural numbers (values are < 256 on the wire). -/
abbrev Byte := Nat

/-- Session states from the `handler` package, as named in the spec:
`NEW → INITIALIZING → (CONNECTED | ERROR)`. -/
inductive SessionState
  | NEW
  | INITIALIZING
  | CONNECTED
  | ERROR
deriving DecidableEq, Repr

/-- The parsed connect request (`SockRequest` in `proxy`): address type
tag, destination address bytes, destination port. -/
structure SockRequest where
  atype : Byte
  destaddr : List Byte
  destport : Nat
deriving DecidableEq, Repr

/-- Observable events of one session run, in program order. -/
inductive Event
  | readGreeting
  | logVersionMismatch
  | logVersionMatched
  | setState (s : SessionState)
  | readConnect
  | writeClient (bytes : List Byte)
  | setOutboundIP (ip : String)
  | lookupHost (host : String)
  | dial (network : String) (addr : String)
  | setOutboundConnection
  | setOutboundPort (port : Nat)
  | relayHandoff
  | semRelease
  | closeConn
deriving DecidableEq, Repr

/-- Modelled from the spec: the outcomes of the calls `handleRequest`
makes into code that is not under `src/` — `request.Read` (the
`handler` package, §6 collaborator interface `read(buffer)`),
`GetSocketRequestDeserialized` (the Connect Request Parser, §4.4),
`net.LookupHost` / `net.Dial` (the platform network layer, §4.5), and
`handler.OutboundHandler.HandleRequest` (the Relay collaborator, §6).
`greetingRead` / `connectRead` are `none` on a read error, otherwise
the buffer contents after the read (the Go buffers are zero-filled, 20
and 200 bytes); `parseResult` is the parser outcome; `resolveResult`
is the first address returned by hostname resolution; `dialResult` and
`outboundResult` are the dial and relay-handoff outcomes. -/
structure SessionEnv where
  greetingRead : Option (List Byte)
  connectRead : Option (List Byte)
  parseResult : Except Unit SockRequest
  resolveResult : Except Unit String
  dialResult : Except Unit Unit
  outboundResult : Except Unit Unit

/-- `fmt.Sprintf("%d.%d.%d.%d", destaddr[0], …, destaddr[3])`. -/
def ipv4String (d : List Byte) : String :=
  toString (d.getD 0 0) ++ "." ++ toString (d.getD 1 0) ++ "." ++
    toString (d.getD 2 0) ++ "." ++ toString (d.getD 3 0)

/-- Big-endian 16-bit groups of a byte sequence. -/
def byteGroups : List Byte → List Nat
  | a :: b :: rest => (a * 256 + b) :: byteGroups rest
  | _ => []

/-- Rendering of `net.IP(destaddr).String()` for the IPv6 branch.  The
standard library's literal compression is abstracted to plain
hexadecimal groups: no claim below depends on the exact literal, only
on the dial network and the event ordering around it. -/
def ipv6String (d : List Byte) : String :=
  String.intercalate ":" ((byteGroups d).map (fun g => String.mk (Nat.toDigits 16 g)))

/-- `string(connect.destaddr)`: the destination bytes as a hostname. -/
def strOfBytes (l : List Byte) : String :=
  String.mk (l.map (fun b => Char.ofNat b))

/-- The success reply built at the end of `handleConnectRequest`:
`[0x05, 0x00, 0x00, atype] ++ destaddr ++ [0x00, 0x50]`. -/
def successReply (connect : SockRequest) : List Byte :=
  [0x05, 0x00, 0x00, connect.atype] ++ connect.destaddr ++ [0x00, 0x50]

/-- `sendSocksError`: sets the session state to `ERROR` and writes the
fixed two-byte stream `{0x05, 0x01}` (the commented-out `switch` on the
session state is dead; this is the only shape emitted). -/
def sendSocksError : List Event :=
  [.setState .ERROR, .writeClient [0x05, 0x01]]

/-- `sendSocksConnectError`: sets the state to `ERROR` and writes
`[0x05, status, 0x00] ++ destaddr ++ [0x01, 0xBB]`. -/
def sendSocksConnectError (status : Byte) (req : SockRequest) : List Event :=
  [.setState .ERROR, .writeClient ([0x05, status, 0x00] ++ req.destaddr ++ [0x01, 0xBB])]

/-- `handleInitial`: read up to 20 bytes; on read error return the
error; otherwise log whether `data[0]` matches 0x05 (without aborting),
set the state to `INITIALIZING`, and return nil. -/
def handleInitial (env : SessionEnv) : List Event × Except Unit Unit :=
  match env.greetingRead with
  | none => ([.readGreeting], .error ())
  | some data =>
    ([.readGreeting] ++
      (if data.headD 0 ≠ 0x05 then [Event.logVersionMismatch] else [Event.logVersionMatched]) ++
      [.setState .INITIALIZING], .ok ())

/-- `handleConnectRequest`: read up to 200 bytes, parse, then branch on
the address type — 0x01 dials `ip:port` over `tcp`, 0x03 resolves the
hostname and dials `addr:port` over `tcp`, 0x04 dials `[ip6]:port` over
`tcp6`, anything else sends the 0x08 connect error and fails; on a
successful dial, record the outbound port and write the success
reply. -/
def handleConnectRequest (env : SessionEnv) : List Event × Except Unit Unit :=
  match env.connectRead with
  | none => ([.readConnect], .error ())
  | some _data =>
    match env.parseResult with
    | .error _ => ([.readConnect], .error ())
    | .ok connect =>
      if connect.atype = 0x01 then
        let ip := ipv4String connect.destaddr
        let addr := ip ++ ":" ++ toString connect.destport
        match env.dialResult with
        | .error _ => ([.readConnect, .setOutboundIP ip, .dial "tcp" addr], .error ())
        | .ok _ =>
          ([.readConnect, .setOutboundIP ip, .dial "tcp" addr, .setOutboundConnection,
            .setOutboundPort connect.destport, .writeClient (successReply connect)], .ok ())
      else if connect.atype = 0x03 then
        let host := strOfBytes connect.destaddr
        match env.resolveResult with
        | .error _ => ([.readConnect, .lookupHost host], .error ())
        | .ok addr0 =>
          let addr := addr0 ++ ":" ++ toString connect.destport
          match env.dialResult with
          | .error _ => ([.readConnect, .lookupHost host, .dial "tcp" addr], .error ())
          | .ok _ =>
            ([.readConnect, .lookupHost host, .dial "tcp" addr, .setOutboundConnection,
              .setOutboundPort connect.destport, .writeClient (successReply connect)], .ok ())
      else if connect.atype = 0x04 then
        let ip := ipv6String connect.destaddr
        let addr := "[" ++ ip ++ "]:" ++ toString connect.destport
        match env.dialResult with
        | .error _ => ([.readConnect, .setOutboundIP ip, .dial "tcp6" addr], .error ())
        | .ok _ =>
          ([.readConnect, .setOutboundIP ip, .dial "tcp6" addr, .setOutboundConnection,
            .setOutboundPort connect.destport, .writeClient (successReply connect)], .ok ())
      else
        ([.readConnect] ++ sendSocksConnectError 0x08 connect, .error ())

/-- Modelled from the spec: `handler.OutboundHandler.HandleRequest`
(the Relay collaborator, not under `src/`) — hands the established
connection pair to the relay stage and reports its outcome. -/
def outboundHandle (env : SessionEnv) : List Event × Except Unit Unit :=
  match env.outboundResult with
  | .error _ => ([.relayHandoff], .error ())
  | .ok _ => ([.relayHandoff], .ok ())

/-- `handleRequest`: drive one session.  On a `handleInitial` error:
send the socks error, release the slot, return nil (the deferred
`request.Close()` runs last).  Otherwise write `{0x05, 0x00}`, run
`handleConnectRequest`, on error send the socks error, release, return
nil; otherwise run the outbound handler, on error send the socks error,
release, return nil; otherwise release and return nil.  The returned
value models the Go `error` result (`none` = nil). -/
def handleRequest (env : SessionEnv) : List Event × Option Unit :=
  let s1 := handleInitial env
  match s1.2 with
  | .error _ => (s1.1 ++ sendSocksError ++ [.semRelease, .closeConn], none)
  | .ok _ =>
    let pre := s1.1 ++ [Event.writeClient [0x05, 0x00]]
    let s2 := handleConnectRequest env
    match s2.2 with
    | .error _ => (pre ++ s2.1 ++ sendSocksError ++ [.semRelease, .closeConn], none)
    | .ok _ =>
      let s3 := outboundHandle env
      match s3.2 with
      | .error _ => (pre ++ s2.1 ++ s3.1 ++ sendSocksError ++ [.semRelease, .closeConn], none)
      | .ok _ => (pre ++ s2.1 ++ s3.1 ++ [.semRelease, .closeConn], none)

/-- The `Server` structure: name, port, maximum concurrent connection
count, and the capacity of the admission semaphore channel `sem`. -/
structure Server where
  name : String
  port : Nat
  maxConnectionCount : Nat
  semCap : Nat
deriving Repr

/-- `New`: builds the proxy and allocates
`sem = make(chan bool, maxConnectionCount)`. -/
def New (name : String) (port maxConnectionCount : Nat) : Server :=
  { name := name, port := port, maxConnectionCount := maxConnectionCount,
    semCap := maxConnectionCount }

/-- One admission state: how many sessions have acquired (via the
dispatcher's `server.sem <- true` in `startHandler`) but not yet
released (via the session's `<-sem`) a slot.  A send on a buffered
channel of capacity `cap` blocks unless fewer than `cap` values are
buffered; a receive blocks unless some value is buffered. -/
inductive AdmissionStep (cap : Nat) : Nat → Nat → Prop
  | acquire (n : Nat) : n < cap → AdmissionStep cap n (n + 1)
  | release (n : Nat) : 0 < n → AdmissionStep cap n (n - 1)

/-- Admission states reachable from the initial empty semaphore. -/
inductive AdmissionReachable (cap : Nat) : Nat → Prop
  | init : AdmissionReachable cap 0
  | step {n m : Nat} : AdmissionReachable cap n → AdmissionStep cap n m →
      AdmissionReachable cap m

/-- The bytes of all `conn.Write` / `request.Write` calls in a trace,
in order. -/
def clientWrites (t : List Event) : List (List Byte) :=
  t.filterMap fun e =>
    match e with
    | .writeClient b => some b
    | _ => none

/-- A reply whose status byte (offset 1) is nonzero: both error shapes
(`[0x05, 0x01]` and `[0x05, status≠0, 0x00, …]`) qualify; the
method-selection reply `[0x05, 0x00]` and the success reply
(`[0x05, 0x00, 0x00, …]`) do not. -/
def isErrorReply (b : List Byte) : Bool :=
  b.getD 1 0 ≠ 0

/-- The error replies among a trace's client writes. -/
def errorReplyWrites (t : List Event) : List (List Byte) :=
  (clientWrites t).filter isErrorReply

/-- The connect-error reply shape of §4.6:
`[0x05, status, 0x00] ++ destaddr ++ [0x01, 0xBB]` for some status byte
(equivalently, with the reply's own second byte as the status). -/
def isConnectErrorShape (connect : SockRequest) (b : List Byte) : Prop :=
  b = [0x05, b.getD 1 0, 0x00] ++ connect.destaddr ++ [0x01, 0xBB]

instance (connect : SockRequest) (b : List Byte) :
    Decidable (isConnectErrorShape connect b) :=
  inferInstanceAs (Decidable (b = [0x05, b.getD 1 0, 0x00] ++ connect.destaddr ++ [0x01, 0xBB]))

/-- Whether an environment takes the unsupported-address-type branch:
the parse succeeded and the tag is outside {0x01, 0x03, 0x04}. -/
def unsupportedAtype (env : SessionEnv) : Prop :=
  ∃ connect, env.parseResult = .ok connect ∧
    connect.atype ≠ 0x01 ∧ connect.atype ≠ 0x03 ∧ connect.atype ≠ 0x04

/-- The three quiet connect-stage failure causes named in the spec — a
malformed connect request, a hostname-resolution failure, or a dial
failure — none of which writes a reply inside `handleConnectRequest`
(unlike the unsupported-address-type branch). -/
def connectStageFailsQuietly (env : SessionEnv) : Prop :=
  ∃ bs, env.connectRead = some bs ∧
    (env.parseResult = .error () ∨
      (∃ c, env.parseResult = .ok c ∧ c.atype = 0x03 ∧ env.resolveResult = .error ()) ∨
      (∃ c, env.parseResult = .ok c ∧
        (c.atype = 0x01 ∨ c.atype = 0x04 ∨
          (c.atype = 0x03 ∧ ∃ a, env.resolveResult = .ok a)) ∧
        env.dialResult = .error ()))

/-- The bytes of `"example.com"`. -/
def exampleDomainBytes : List Byte :=
  [101, 120, 97, 109, 112, 108, 101, 46, 99, 111, 109]

/-- A fully successful IPv4 session environment: greeting `05 01`,
connect request for `127.0.0.1:8080`, dial and relay succeed. -/
def envSuccess : SessionEnv :=
  { greetingRead := some [0x05, 0x01]
    connectRead := some [0x05, 0x01, 0x00, 0x01, 127, 0, 0, 1, 0x1F, 0x90]
    parseResult := .ok ⟨0x01, [127, 0, 0, 1], 8080⟩
    resolveResult := .ok "127.0.0.1"
    dialResult := .ok ()
    outboundResult := .ok () }

/-- An IPv4 session whose outbound dial fails. -/
def envDialFail : SessionEnv :=
  { greetingRead := some [0x05, 0x01]
    connectRead := some [0x05, 0x01, 0x00, 0x01, 127, 0, 0, 1, 0x1F, 0x90]
    parseResult := .ok ⟨0x01, [127, 0, 0, 1], 8080⟩
    resolveResult := .ok "127.0.0.1"
    dialResult := .error ()
    outboundResult := .ok () }

/-- A domain-name session (`example.com:80`) whose hostname resolution
fails. -/
def envResolveFail : SessionEnv :=
  { greetingRead := some [0x05, 0x01]
    connectRead := some ([0x05, 0x01, 0x00, 0x03, 11] ++ exampleDomainBytes ++ [0x00, 0x50])
    parseResult := .ok ⟨0x03, exampleDomainBytes, 80⟩
    resolveResult := .error ()
    dialResult := .ok ()
    outboundResult := .ok () }

/-- A session whose connect request carries the unsupported address
type 0x05. -/
def envUnsupported : SessionEnv :=
  { greetingRead := some [0x05, 0x01]
    connectRead := some [0x05, 0x01, 0x00, 0x05, 1, 2, 3, 4, 0x00, 0x50]
    parseResult := .ok ⟨0x05, [1, 2, 3, 4], 80⟩
    resolveResult := .ok "1.2.3.4"
    dialResult := .ok ()
    outboundResult := .ok () }

/-- A session whose greeting carries version byte 0x04 instead of 0x05
but reads successfully. -/
def envBadVersion : SessionEnv :=
  { greetingRead := some [0x04, 0x01]
    connectRead := some [0x05, 0x01, 0x00, 0x01, 127, 0, 0, 1, 0x1F, 0x90]
    parseResult := .ok ⟨0x01, [127, 0, 0, 1], 8080⟩
    resolveResult := .ok "127.0.0.1"
    dialResult := .ok ()
    outboundResult := .ok () }

/-! ## Helper lemmas -/

theorem clientWrites_append (s t : List Event) :
    clientWrites (s ++ t) = clientWrites s ++ clientWrites t := by
  simp [clientWrites, List.filterMap_append]

theorem errorReplyWrites_append (s t : List Event) :
    errorReplyWrites (s ++ t) = errorReplyWrites s ++ errorReplyWrites t := by
  simp [errorReplyWrites, clientWrites_append, List.filter_append]

theorem handleInitial_no_writes (env : SessionEnv) (b : List Byte) :
    Event.writeClient b ∉ (handleInitial env).1 := by
  unfold handleInitial
  cases env.greetingRead with
  | none => simp
  | some data =>
    by_cases h : data.head?.getD 0 = 0x05 <;>
      simp [List.headD_eq_head?_getD, h]

theorem handleInitial_ok_of_read (env : SessionEnv) (d : List Byte)
    (hg : env.greetingRead = some d) :
    (handleInitial env).2 = .ok () ∧
      ∀ e ∈ (handleInitial env).1,
        e ≠ Event.readConnect ∧ ∀ b, e ≠ Event.writeClient b := by
  unfold handleInitial
  rw [hg]
  by_cases h : d.head?.getD 0 = 0x05 <;>
    simp [List.headD_eq_head?_getD, h]

theorem clientWrites_handleInitial (env : SessionEnv) :
    clientWrites (handleInitial env).1 = [] := by
  unfold handleInitial
  cases env.greetingRead with
  | none => rfl
  | some data =>
    by_cases h : data.head?.getD 0 = 0x05 <;>
      simp [List.headD_eq_head?_getD, h, clientWrites]

theorem errorWrites_handleInitial (env : SessionEnv) :
    errorReplyWrites (handleInitial env).1 = [] := by
  simp [errorReplyWrites, clientWrites_handleInitial]

theorem errorWrites_outboundHandle (env : SessionEnv) :
    errorReplyWrites (outboundHandle env).1 = [] := by
  unfold outboundHandle
  cases env.outboundResult <;> rfl

theorem errorWrites_sendSocksError : errorReplyWrites sendSocksError = [[0x05, 0x01]] := rfl

theorem errorWrites_final : errorReplyWrites [Event.semRelease, Event.closeConn] = [] := rfl

theorem errorWrites_methodReply : errorReplyWrites [Event.writeClient [0x05, 0x00]] = [] := rfl

theorem isErrorReply_successReply (c : SockRequest) :
    isErrorReply (successReply c) = false := rfl

theorem isErrorReply_connectError (c : SockRequest) :
    isErrorReply (0x05 :: 0x08 :: 0x00 :: (c.destaddr ++ [0x01, 0xBB])) = true := rfl

theorem errorReplyWrites_cons_methodReply (t : List Event) :
    errorReplyWrites (Event.writeClient [0x05, 0x00] :: t) = errorReplyWrites t := rfl

theorem connectFail_no_writes (env : SessionEnv) (h : connectStageFailsQuietly env) :
    (handleConnectRequest env).2 = .error () ∧
      ∀ b, Event.writeClient b ∉ (handleConnectRequest env).1 := by
  obtain ⟨bs, hr, hcase⟩ := h
  unfold handleConnectRequest
  rw [hr]
  rcases hcase with hp | ⟨c, hp, ha, hres⟩ | ⟨c, hp, hty, hd⟩
  · rw [hp]; simp
  · rw [hp]; simp [ha, hres]
  · rcases hty with ha | ha | ⟨ha, a, hres⟩
    · rw [hp]; simp [ha, hd]
    · rw [hp]; simp [ha, hd]
    · rw [hp]; simp [ha, hres, hd]

theorem errorWrites_handleConnectRequest (env : SessionEnv) :
    errorReplyWrites (handleConnectRequest env).1 = [] ∨
      ((handleConnectRequest env).2 = .error () ∧
        ∃ c, env.parseResult = .ok c ∧
          c.atype ≠ 0x01 ∧ c.atype ≠ 0x03 ∧ c.atype ≠ 0x04 ∧
          errorReplyWrites (handleConnectRequest env).1 =
            [[0x05, 0x08, 0x00] ++ c.destaddr ++ [0x01, 0xBB]]) := by
  unfold handleConnectRequest
  cases hr : env.connectRead with
  | none => left; rfl
  | some bs =>
    cases hp : env.parseResult with
    | error e => left; rfl
    | ok c =>
      by_cases h1 : c.atype = 0x01
      · left
        cases hd : env.dialResult <;>
          simp [h1, errorReplyWrites, clientWrites, isErrorReply_successReply]
      · by_cases h3 : c.atype = 0x03
        · left
          cases hres : env.resolveResult with
          | error e =>
            simp [h1, h3, errorReplyWrites, clientWrites]
          | ok a =>
            cases hd : env.dialResult <;>
              simp [h1, h3, errorReplyWrites, clientWrites, isErrorReply_successReply]
        · by_cases h4 : c.atype = 0x04
          · left
            cases hd : env.dialResult <;>
              simp [h1, h3, h4, errorReplyWrites, clientWrites, isErrorReply_successReply]
          · right
            refine ⟨by simp [h1, h3, h4, sendSocksConnectError], c, rfl, h1, h3, h4, ?_⟩
            simp [h1, h3, h4, sendSocksConnectError, errorReplyWrites, clientWrites,
              isErrorReply_connectError]

theorem count_semRelease_handleInitial (env : SessionEnv) :
    (handleInitial env).1.count Event.semRelease = 0 := by
  unfold handleInitial
  cases env.greetingRead with
  | none => rfl
  | some data =>
    by_cases h : data.head?.getD 0 = 0x05 <;>
      simp [List.headD_eq_head?_getD, h, List.count_eq_zero]

theorem count_semRelease_handleConnectRequest (env : SessionEnv) :
    (handleConnectRequest env).1.count Event.semRelease = 0 := by
  unfold handleConnectRequest
  cases env.connectRead with
  | none => rfl
  | some data =>
    cases env.parseResult with
    | error e => rfl
    | ok connect =>
      simp only
      split
      · cases env.dialResult <;> simp [List.count_eq_zero]
      · split
        · cases env.resolveResult with
          | error e => simp [List.count_eq_zero]
          | ok addr0 => cases env.dialResult <;> simp [List.count_eq_zero]
        · split
          · cases env.dialResult <;> simp [List.count_eq_zero]
          · simp [sendSocksConnectError, List.count_eq_zero]

theorem count_semRelease_outboundHandle (env : SessionEnv) :
    (outboundHandle env).1.count Event.semRelease = 0 := by
  unfold outboundHandle
  cases env.outboundResult <;> rfl

/-! ## Claims -/

/-- C1: the admission primitive is created with capacity
`maxConnectionCount`, and in every execution of the acquire/release
discipline (dispatcher sends one token before spawning a session, each
session receives one) the number of sessions holding a slot never
exceeds that bound. -/
theorem admission_never_exceeds_max (name : String) (port M n : Nat)
    (h : AdmissionReachable (New name port M).semCap n) :
    n ≤ (New name port M).maxConnectionCount := by
  induction h with
  | init => exact Nat.zero_le _
  | step _ hs ih =>
    cases hs with
    | acquire hk => simpa [New] using hk
    | release hk => omega

/-- Witness for C1: with capacity 2, the state after one acquisition is
reachable and within the bound. -/
theorem admission_never_exceeds_max_witness :
    1 ≤ (New "proxy-1" 1080 2).maxConnectionCount :=
  admission_never_exceeds_max "proxy-1" 1080 2 1
    (AdmissionReachable.step AdmissionReachable.init
      (AdmissionStep.acquire 0 (by decide)))

/-- C2: every run of `handleRequest`, whatever the outcomes of the
greeting read, parse, resolution, dial and relay stages, performs the
`<-sem` release exactly once. -/
theorem handleRequest_releases_exactly_once (env : SessionEnv) :
    (handleRequest env).1.count Event.semRelease = 1 := by
  have h1 := count_semRelease_handleInitial env
  have h2 := count_semRelease_handleConnectRequest env
  have h3 := count_semRelease_outboundHandle env
  simp only [handleRequest]
  cases hi : (handleInitial env).2 with
  | error e => simp [List.count_append, List.count_cons, h1, sendSocksError]
  | ok u =>
    cases hc : (handleConnectRequest env).2 with
    | error e => simp [List.count_append, List.count_cons, h1, h2, sendSocksError]
    | ok u2 =>
      cases ho : (outboundHandle env).2 with
      | error e => simp [List.count_append, List.count_cons, h1, h2, h3, sendSocksError]
      | ok u3 => simp [List.count_append, List.count_cons, h1, h2, h3]

/-- C3: whenever the greeting read succeeds, the session writes the
method-selection reply — exactly the two bytes `{0x05, 0x00}` — and no
client write or connect-request read precedes it in the trace. -/
theorem method_selection_reply_before_connect_read (env : SessionEnv) (d : List Byte)
    (hg : env.greetingRead = some d) :
    ∃ pre post, (handleRequest env).1 = pre ++ Event.writeClient [0x05, 0x00] :: post ∧
      ∀ e ∈ pre, e ≠ Event.readConnect ∧ ∀ b, e ≠ Event.writeClient b := by
  obtain ⟨hok, hev⟩ := handleInitial_ok_of_read env d hg
  simp only [handleRequest]
  cases hi : (handleInitial env).2 with
  | error e => rw [hok] at hi; simp at hi
  | ok u =>
    cases hc : (handleConnectRequest env).2 with
    | error e =>
      exact ⟨(handleInitial env).1,
        (handleConnectRequest env).1 ++ sendSocksError ++ [.semRelease, .closeConn],
        by simp, hev⟩
    | ok u2 =>
      cases ho : (outboundHandle env).2 with
      | error e =>
        exact ⟨(handleInitial env).1,
          (handleConnectRequest env).1 ++ (outboundHandle env).1 ++ sendSocksError ++
            [.semRelease, .closeConn],
          by simp, hev⟩
      | ok u3 =>
        exact ⟨(handleInitial env).1,
          (handleConnectRequest env).1 ++ (outboundHandle env).1 ++
            [.semRelease, .closeConn],
          by simp, hev⟩

/-- Witness for C3: instantiated at the successful IPv4 session. -/
theorem method_selection_reply_before_connect_read_witness :
    ∃ pre post, (handleRequest envSuccess).1 = pre ++ Event.writeClient [0x05, 0x00] :: post ∧
      ∀ e ∈ pre, e ≠ Event.readConnect ∧ ∀ b, e ≠ Event.writeClient b :=
  method_selection_reply_before_connect_read envSuccess [0x05, 0x01] rfl

/-- C4: for a parsed connect request with address type 0x01, address
bytes `{127, 0, 0, 1}` and port 8080, a successful dial goes to
`"127.0.0.1:8080"` over `tcp` and the success reply is exactly
`[0x05, 0x00, 0x00, 0x01, 127, 0, 0, 1, 0x00, 0x50]` — the echoed
address bytes followed by the fixed port bytes `0x00 0x50`. -/
theorem ipv4_dial_and_success_reply (env : SessionEnv) (bs : List Byte)
    (hr : env.connectRead = some bs)
    (hp : env.parseResult = .ok ⟨0x01, [127, 0, 0, 1], 8080⟩)
    (hd : env.dialResult = .ok ()) :
    Event.dial "tcp" "127.0.0.1:8080" ∈ (handleConnectRequest env).1 ∧
      Event.writeClient [0x05, 0x00, 0x00, 0x01, 127, 0, 0, 1, 0x00, 0x50] ∈
        (handleConnectRequest env).1 := by
  have hstr : ipv4String [127, 0, 0, 1] ++ ":" ++ toString (8080 : Nat) = "127.0.0.1:8080" := by
    decide
  unfold handleConnectRequest
  rw [hr, hp, hd]
  simp [successReply, hstr]

/-- Witness for C4: instantiated at the successful IPv4 session. -/
theorem ipv4_dial_and_success_reply_witness :
    Event.dial "tcp" "127.0.0.1:8080" ∈ (handleConnectRequest envSuccess).1 ∧
      Event.writeClient [0x05, 0x00, 0x00, 0x01, 127, 0, 0, 1, 0x00, 0x50] ∈
        (handleConnectRequest envSuccess).1 :=
  ipv4_dial_and_success_reply envSuccess
    [0x05, 0x01, 0x00, 0x01, 127, 0, 0, 1, 0x1F, 0x90] rfl rfl rfl

/-- C5: a parsed connect request whose address type is outside
{0x01, 0x03, 0x04} attempts no dial, sends the connect-error reply with
status 0x08, and reports failure to the caller. -/
theorem unsupported_atype_rejected (env : SessionEnv) (connect : SockRequest) (bs : List Byte)
    (hr : env.connectRead = some bs) (hp : env.parseResult = .ok connect)
    (h1 : connect.atype ≠ 0x01) (h3 : connect.atype ≠ 0x03) (h4 : connect.atype ≠ 0x04) :
    (handleConnectRequest env).2 = .error () ∧
      (∀ nw a, Event.dial nw a ∉ (handleConnectRequest env).1) ∧
      Event.writeClient ([0x05, 0x08, 0x00] ++ connect.destaddr ++ [0x01, 0xBB]) ∈
        (handleConnectRequest env).1 := by
  unfold handleConnectRequest
  rw [hr, hp]
  simp [h1, h3, h4, sendSocksConnectError]

/-- Witness for C5: instantiated at the address-type-0x05 session. -/
theorem unsupported_atype_rejected_witness :
    (handleConnectRequest envUnsupported).2 = .error () ∧
      (∀ nw a, Event.dial nw a ∉ (handleConnectRequest envUnsupported).1) ∧
      Event.writeClient ([0x05, 0x08, 0x00] ++ [1, 2, 3, 4] ++ [0x01, 0xBB]) ∈
        (handleConnectRequest envUnsupported).1 :=
  unsupported_atype_rejected envUnsupported ⟨0x05, [1, 2, 3, 4], 80⟩
    [0x05, 0x01, 0x00, 0x05, 1, 2, 3, 4, 0x00, 0x50] rfl rfl
    (by decide) (by decide) (by decide)

/-- Counterexample for C6 as stated: in the concrete domain-name
session whose resolution fails, no client write carries the
connect-error reply shape of §4.6 — the replies actually written are
the method-selection reply and the generic two-byte `[0x05, 0x01]`. -/
theorem resolve_failure_reply_not_connect_error_shape :
    ¬ ∃ b ∈ clientWrites (handleRequest envResolveFail).1,
        isConnectErrorShape ⟨0x03, exampleDomainBytes, 80⟩ b := by
  decide

/-- C6 (amended): for an address-type-0x03 connect request, hostname
resolution is attempted before any dial; if resolution fails, no dial
is attempted, the connect stage reports failure, and the client
receives the generic two-byte error reply `[0x05, 0x01]` (not the
§4.6 connect-error shape). -/
theorem domain_resolution_before_dial (env : SessionEnv) (connect : SockRequest)
    (bs : List Byte)
    (hr : env.connectRead = some bs) (hp : env.parseResult = .ok connect)
    (ha : connect.atype = 0x03) :
    (∃ pre post, (handleConnectRequest env).1 =
        pre ++ Event.lookupHost (strOfBytes connect.destaddr) :: post ∧
        ∀ nw a, Event.dial nw a ∉ pre) ∧
      (env.resolveResult = .error () →
        (∀ nw a, Event.dial nw a ∉ (handleConnectRequest env).1) ∧
        (handleConnectRequest env).2 = .error () ∧
        Event.writeClient [0x05, 0x01] ∈ (handleRequest env).1) := by
  cases hres : env.resolveResult with
  | error e =>
    have heq : handleConnectRequest env =
        ([Event.readConnect, Event.lookupHost (strOfBytes connect.destaddr)],
          .error ()) := by
      unfold handleConnectRequest
      rw [hr, hp]
      simp [ha, hres]
    refine ⟨⟨[Event.readConnect], [], by simp [heq], by simp⟩, fun _ => ⟨?_, ?_, ?_⟩⟩
    · rw [heq]; simp
    · rw [heq]
    · simp only [handleRequest]
      cases hi : (handleInitial env).2 with
      | error e2 => simp [sendSocksError]
      | ok u => rw [heq]; simp [sendSocksError]
  | ok addr0 =>
    constructor
    · cases hd : env.dialResult with
      | error e =>
        have heq : handleConnectRequest env =
            ([Event.readConnect, Event.lookupHost (strOfBytes connect.destaddr),
              Event.dial "tcp" (addr0 ++ ":" ++ toString connect.destport)],
              .error ()) := by
          unfold handleConnectRequest
          rw [hr, hp]
          simp [ha, hres, hd]
        exact ⟨[Event.readConnect],
          [Event.dial "tcp" (addr0 ++ ":" ++ toString connect.destport)],
          by simp [heq], by simp⟩
      | ok u =>
        have heq : handleConnectRequest env =
            ([Event.readConnect, Event.lookupHost (strOfBytes connect.destaddr),
              Event.dial "tcp" (addr0 ++ ":" ++ toString connect.destport),
              Event.setOutboundConnection, Event.setOutboundPort connect.destport,
              Event.writeClient (successReply connect)], .ok ()) := by
          unfold handleConnectRequest
          rw [hr, hp]
          simp [ha, hres, hd]
        exact ⟨[Event.readConnect],
          [Event.dial "tcp" (addr0 ++ ":" ++ toString connect.destport),
            Event.setOutboundConnection, Event.setOutboundPort connect.destport,
            Event.writeClient (successReply connect)],
          by simp [heq], by simp⟩
    · intro h'
      simp at h'

/-- Witness for C6: instantiated at the failing-resolution session for
`example.com`. -/
theorem domain_resolution_before_dial_witness :
    (∃ pre post, (handleConnectRequest envResolveFail).1 =
        pre ++ Event.lookupHost (strOfBytes exampleDomainBytes) :: post ∧
        ∀ nw a, Event.dial nw a ∉ pre) ∧
      (envResolveFail.resolveResult = .error () →
        (∀ nw a, Event.dial nw a ∉ (handleConnectRequest envResolveFail).1) ∧
        (handleConnectRequest envResolveFail).2 = .error () ∧
        Event.writeClient [0x05, 0x01] ∈ (handleRequest envResolveFail).1) :=
  domain_resolution_before_dial envResolveFail ⟨0x03, exampleDomainBytes, 80⟩
    ([0x05, 0x01, 0x00, 0x03, 11] ++ exampleDomainBytes ++ [0x00, 0x50]) rfl rfl rfl

/-- Counterexample for C7 as stated: in the concrete IPv4 session whose
dial fails, the error reply actually emitted is the two-byte
`[0x05, 0x01]`, which does not have the §4.6 connect-error shape. -/
theorem dial_failure_reply_not_connect_error_shape :
    errorReplyWrites (handleRequest envDialFail).1 = [[0x05, 0x01]] ∧
      ¬ isConnectErrorShape ⟨0x01, [127, 0, 0, 1], 8080⟩ [0x05, 0x01] := by
  decide

/-- C7 (amended): a session terminated by a malformed connect request,
a resolution failure, or a dial failure emits the fixed generic error
reply `[0x05, 0x01]`; the only other client write such a session can
make is the method-selection reply `[0x05, 0x00]` — the connect-error
shape with echoed address bytes is emitted only on the
unsupported-address-type path. -/
theorem quiet_failure_generic_reply (env : SessionEnv)
    (h : connectStageFailsQuietly env) :
    Event.writeClient [0x05, 0x01] ∈ (handleRequest env).1 ∧
      ∀ b, Event.writeClient b ∈ (handleRequest env).1 →
        b = [0x05, 0x00] ∨ b = [0x05, 0x01] := by
  obtain ⟨herr, hnw⟩ := connectFail_no_writes env h
  simp only [handleRequest]
  cases hi : (handleInitial env).2 with
  | error e =>
    refine ⟨by simp [sendSocksError], fun b hb => ?_⟩
    simp [sendSocksError] at hb
    rcases hb with hb | hb
    · exact absurd hb (handleInitial_no_writes env b)
    · exact Or.inr hb
  | ok u =>
    cases hc : (handleConnectRequest env).2 with
    | ok u2 => rw [herr] at hc; simp at hc
    | error e =>
      refine ⟨by simp [sendSocksError], fun b hb => ?_⟩
      simp [sendSocksError] at hb
      rcases hb with hb | hb | hb | hb
      · exact absurd hb (handleInitial_no_writes env b)
      · exact Or.inl hb
      · exact absurd hb (hnw b)
      · exact Or.inr hb

/-- Witness for C7: instantiated at the failing-dial IPv4 session. -/
theorem quiet_failure_generic_reply_witness :
    Event.writeClient [0x05, 0x01] ∈ (handleRequest envDialFail).1 ∧
      ∀ b, Event.writeClient b ∈ (handleRequest envDialFail).1 →
        b = [0x05, 0x00] ∨ b = [0x05, 0x01] :=
  quiet_failure_generic_reply envDialFail
    ⟨[0x05, 0x01, 0x00, 0x01, 127, 0, 0, 1, 0x1F, 0x90], rfl,
      Or.inr (Or.inr ⟨⟨0x01, [127, 0, 0, 1], 8080⟩, rfl, Or.inl rfl, rfl⟩)⟩

/-- Counterexample for C9 as stated: the concrete session with
unsupported address type 0x05 receives two error replies — the
status-0x08 connect error and then the generic `[0x05, 0x01]`. -/
theorem unsupported_atype_double_error_reply :
    errorReplyWrites (handleRequest envUnsupported).1 =
        [[0x05, 0x08, 0x00, 1, 2, 3, 4, 0x01, 0xBB], [0x05, 0x01]] ∧
      1 < (errorReplyWrites (handleRequest envUnsupported).1).length := by
  decide

/-- C9 (amended): every session's client writes contain at most one
error reply, except a session whose parsed connect request has an
unsupported address type: that one receives exactly two, the 0x08
connect-error reply followed by the generic `[0x05, 0x01]`. -/
theorem error_reply_multiplicity (env : SessionEnv) :
    (errorReplyWrites (handleRequest env).1).length ≤ 1 ∨
      (∃ c, env.parseResult = .ok c ∧
        c.atype ≠ 0x01 ∧ c.atype ≠ 0x03 ∧ c.atype ≠ 0x04 ∧
        errorReplyWrites (handleRequest env).1 =
          [[0x05, 0x08, 0x00] ++ c.destaddr ++ [0x01, 0xBB], [0x05, 0x01]]) := by
  simp only [handleRequest]
  cases hi : (handleInitial env).2 with
  | error e =>
    left
    simp [errorReplyWrites_append, errorWrites_handleInitial, errorWrites_sendSocksError,
      errorWrites_final]
  | ok u =>
    cases hc : (handleConnectRequest env).2 with
    | error e =>
      rcases errorWrites_handleConnectRequest env with hw | ⟨_, c, hp, h1, h3, h4, hw⟩
      · left
        simp [errorReplyWrites_append, errorWrites_handleInitial, errorWrites_sendSocksError,
          errorWrites_final, errorWrites_methodReply, errorReplyWrites_cons_methodReply, hw]
      · right
        refine ⟨c, hp, h1, h3, h4, ?_⟩
        simp [errorReplyWrites_append, errorWrites_handleInitial, errorWrites_sendSocksError,
          errorWrites_final, errorWrites_methodReply, errorReplyWrites_cons_methodReply, hw]
    | ok u2 =>
      have hw : errorReplyWrites (handleConnectRequest env).1 = [] := by
        rcases errorWrites_handleConnectRequest env with hw | ⟨hcErr, _⟩
        · exact hw
        · rw [hc] at hcErr; simp at hcErr
      cases ho : (outboundHandle env).2 with
      | error e =>
        left
        simp [errorReplyWrites_append, errorWrites_handleInitial, errorWrites_sendSocksError,
          errorWrites_final, errorWrites_methodReply, errorReplyWrites_cons_methodReply,
          errorWrites_outboundHandle, hw]
      | ok u3 =>
        left
        simp [errorReplyWrites_append, errorWrites_handleInitial, errorWrites_final,
          errorWrites_methodReply, errorReplyWrites_cons_methodReply,
          errorWrites_outboundHandle, hw]

/-- C8: a greeting whose first byte differs from 0x05 is logged as a
mismatch but not rejected — `handleInitial` still returns nil, the
session still enters `INITIALIZING`, and the method-selection reply is
still written. -/
theorem version_mismatch_tolerated (env : SessionEnv) (d : List Byte)
    (hg : env.greetingRead = some d) (hv : d.headD 0 ≠ 0x05) :
    (handleInitial env).2 = .ok () ∧
      Event.logVersionMismatch ∈ (handleInitial env).1 ∧
      Event.setState SessionState.INITIALIZING ∈ (handleInitial env).1 ∧
      Event.writeClient [0x05, 0x00] ∈ (handleRequest env).1 := by
  have hinit : handleInitial env =
      ([Event.readGreeting, Event.logVersionMismatch, Event.setState .INITIALIZING],
        .ok ()) := by
    unfold handleInitial
    rw [hg]
    rw [List.headD_eq_head?_getD] at hv
    simp [hv]
  refine ⟨by rw [hinit], by rw [hinit]; simp, by rw [hinit]; simp, ?_⟩
  simp only [handleRequest]
  rw [hinit]
  cases hc : (handleConnectRequest env).2 with
  | error e => simp
  | ok u =>
    cases ho : (outboundHandle env).2 with
    | error e => simp
    | ok u2 => simp

/-- Witness for C8: instantiated at the version-0x04 session. -/
theorem version_mismatch_tolerated_witness :
    (handleInitial envBadVersion).2 = .ok () ∧
      Event.logVersionMismatch ∈ (handleInitial envBadVersion).1 ∧
      Event.setState SessionState.INITIALIZING ∈ (handleInitial envBadVersion).1 ∧
      Event.writeClient [0x05, 0x00] ∈ (handleRequest envBadVersion).1 :=
  version_mismatch_tolerated envBadVersion [0x04, 0x01] rfl (by decide)

/-- C10: `handleRequest` returns nil on every path: all greeting,
connect and outbound failures are swallowed inside the handler. -/
theorem handleRequest_always_returns_nil (env : SessionEnv) :
    (handleRequest env).2 = none := by
  simp only [handleRequest]
  cases hi : (handleInitial env).2 with
  | error e => rfl
  | ok u =>
    cases hc : (handleConnectRequest env).2 with
    | error e => rfl
    | ok u2 =>
      cases ho : (outboundHandle env).2 with
      | error e => rfl
      | ok u3 => rfl

end Proxy
